import Mathlib

/-!
Shallow embedding of the notification-proxy sanitization layer
(src/notifications.rs) and verification of its specification.

Modelling conventions:
- Rust `i32` values are modelled as `Int`; every arithmetic operation the
  source performs on them (comparisons, `3 + has_alpha as i32`, truncated
  division) is within i32 range on all reachable paths, so plain `Int`
  is faithful.
- Rust `usize` (`data.len()`) is modelled as `Nat`; the single
  `usize as i32` cast in the source is modelled explicitly by `usizeAsI32`,
  which wraps modulo 2^32 and reinterprets as a signed 32-bit value,
  exactly like a Rust `as` cast.
- Rust `i32` division `/` truncates toward zero: modelled by `Int.tdiv`.
- Byte buffers (`&[u8]`) are modelled as `List (Fin 256)`.
- `zbus::zvariant::Value` is modelled by the inductive `Value`; the Rust
  `Value::from((w, h, rs, alpha, bps, ch, data))` builds a structure value
  whose fields keep the tuple order, modelled by `Value.structV` applied to
  the ordered list of components.
- `send_notification` awaits `connection.notify(...)`; the transport is out
  of scope, so the embedding returns the `NotifyCall` record of the
  arguments handed to `notify` on success, and `Except.error` when the
  function returns before ever invoking the transport.
-/

namespace NotifProxy

/-- Model of `zbus::zvariant::Value`, restricted to the variants this layer
constructs: 32-bit integers, unsigned bytes, booleans, byte arrays, and
structures (ordered field lists). -/
inductive Value where
  | i32 (v : Int) : Value
  | u8 (v : Nat) : Value
  | boolV (b : Bool) : Value
  | bytes (d : List (Fin 256)) : Value
  | structV (fields : List Value) : Value

/-- Source: `pub const MAX_SIZE: usize = 1usize << 21;` (2 MiB). -/
def MAX_SIZE : Nat := 1 <<< 21

/-- Source: `pub const MAX_WIDTH: i32 = 255;`. -/
def MAX_WIDTH : Int := 255

/-- Source: `pub const MAX_HEIGHT: i32 = 255;`. -/
def MAX_HEIGHT : Int := 255

/-- The Rust cast `n as i32` applied to a `usize` value `n`: reduce modulo
2^32, then reinterpret the 32-bit pattern as a signed integer. -/
def usizeAsI32 (n : Nat) : Int :=
  let m : Nat := n % 2 ^ 32
  if m < 2 ^ 31 then (m : Int) else (m : Int) - 2 ^ 32

/-- Source line 65: `let channels = 3i32 + untrusted_has_alpha as i32;`.
In Rust, `false as i32 = 0` and `true as i32 = 1`. -/
def derivedChannels (has_alpha : Bool) : Int :=
  3 + (if has_alpha then 1 else 0)

/-- Embedding of `serialize_image` (src/notifications.rs lines 40-97).
The seven `if` checks and their error strings appear in source order; the
local bindings `bits_per_sample`, `data`, `channels`, `height`, `width`,
`rowstride` of the source are inlined (each is a plain copy of an argument
or, for `channels`, `derivedChannels untrusted_has_alpha`). -/
def serialize_image (untrusted_width untrusted_height untrusted_rowstride : Int)
    (untrusted_has_alpha : Bool) (untrusted_bits_per_sample untrusted_channels : Int)
    (untrusted_data : List (Fin 256)) : Except String Value :=
  if untrusted_width < 1 ∨ untrusted_height < 1 ∨ untrusted_rowstride < 3 then
    Except.error "Too small width, height, or stride"
  else if untrusted_data.length > MAX_SIZE then
    Except.error "Too much data"
  else if untrusted_bits_per_sample ≠ 8 then
    Except.error "Wrong number of bits per sample"
  else if untrusted_channels ≠ derivedChannels untrusted_has_alpha then
    Except.error "Wrong number of channels"
  else if untrusted_width > MAX_WIDTH ∨ untrusted_height > MAX_HEIGHT then
    Except.error "Width or height too large"
  else if (usizeAsI32 untrusted_data.length).tdiv untrusted_height < untrusted_rowstride then
    Except.error "Image too large"
  else if untrusted_rowstride.tdiv (derivedChannels untrusted_has_alpha) < untrusted_width then
    Except.error "Row stride too small"
  else
    Except.ok (Value.structV
      [Value.i32 untrusted_width, Value.i32 untrusted_height,
       Value.i32 untrusted_rowstride, Value.boolV untrusted_has_alpha,
       Value.i32 untrusted_bits_per_sample,
       Value.i32 (derivedChannels untrusted_has_alpha),
       Value.bytes untrusted_data])

/-- The argument tuple of `serialize_image`, bundled for quantification. -/
structure ImageArgs where
  width : Int
  height : Int
  rowstride : Int
  has_alpha : Bool
  bits_per_sample : Int
  channels : Int
  data : List (Fin 256)

/-- `serialize_image` applied to a bundled argument tuple. -/
def serialize_imageA (a : ImageArgs) : Except String Value :=
  serialize_image a.width a.height a.rowstride a.has_alpha a.bits_per_sample
    a.channels a.data

/-- Variant of `serialize_image` (on bundled arguments) whose buffer-height
check compares against the exact buffer length `(a.data.length : Int)`
instead of the cast `usizeAsI32 a.data.length`; used to state that the
source's cast is lossless. -/
def serialize_image_exact (a : ImageArgs) : Except String Value :=
  if a.width < 1 ∨ a.height < 1 ∨ a.rowstride < 3 then
    Except.error "Too small width, height, or stride"
  else if a.data.length > MAX_SIZE then
    Except.error "Too much data"
  else if a.bits_per_sample ≠ 8 then
    Except.error "Wrong number of bits per sample"
  else if a.channels ≠ derivedChannels a.has_alpha then
    Except.error "Wrong number of channels"
  else if a.width > MAX_WIDTH ∨ a.height > MAX_HEIGHT then
    Except.error "Width or height too large"
  else if ((a.data.length : Int)).tdiv a.height < a.rowstride then
    Except.error "Image too large"
  else if a.rowstride.tdiv (derivedChannels a.has_alpha) < a.width then
    Except.error "Row stride too small"
  else
    Except.ok (Value.structV
      [Value.i32 a.width, Value.i32 a.height, Value.i32 a.rowstride,
       Value.boolV a.has_alpha, Value.i32 a.bits_per_sample,
       Value.i32 (derivedChannels a.has_alpha), Value.bytes a.data])

/-- Truncated integer division guarded the way the underlying machine is:
`none` when the divisor is zero or negative (a Rust division panics on a
zero divisor; a negative divisor would make the buffer-bound comparisons
meaningless). -/
def checkedTdiv (x y : Int) : Option Int :=
  if y ≤ 0 then none else some (x.tdiv y)

/-- `serialize_image` with every division routed through `checkedTdiv`:
the result is `none` exactly when some executed division has a zero or
negative divisor. -/
def serialize_image_checked (a : ImageArgs) : Option (Except String Value) :=
  if a.width < 1 ∨ a.height < 1 ∨ a.rowstride < 3 then
    some (Except.error "Too small width, height, or stride")
  else if a.data.length > MAX_SIZE then
    some (Except.error "Too much data")
  else if a.bits_per_sample ≠ 8 then
    some (Except.error "Wrong number of bits per sample")
  else if a.channels ≠ derivedChannels a.has_alpha then
    some (Except.error "Wrong number of channels")
  else if a.width > MAX_WIDTH ∨ a.height > MAX_HEIGHT then
    some (Except.error "Width or height too large")
  else
    match checkedTdiv (usizeAsI32 a.data.length) a.height with
    | none => none
    | some q =>
      if q < a.rowstride then some (Except.error "Image too large")
      else
        match checkedTdiv a.rowstride (derivedChannels a.has_alpha) with
        | none => none
        | some q2 =>
          if q2 < a.width then some (Except.error "Row stride too small")
          else some (Except.ok (Value.structV
            [Value.i32 a.width, Value.i32 a.height, Value.i32 a.rowstride,
             Value.boolV a.has_alpha, Value.i32 a.bits_per_sample,
             Value.i32 (derivedChannels a.has_alpha), Value.bytes a.data]))

/-- The condition of the k-th check of `serialize_image` (0-indexed), in the
order the source applies them, phrased on the exact buffer length as the
specification does. `true` means the check fails. -/
def checkFails (a : ImageArgs) : Nat → Bool
  | 0 => decide (a.width < 1 ∨ a.height < 1 ∨ a.rowstride < 3)
  | 1 => decide (a.data.length > MAX_SIZE)
  | 2 => decide (a.bits_per_sample ≠ 8)
  | 3 => decide (a.channels ≠ derivedChannels a.has_alpha)
  | 4 => decide (a.width > MAX_WIDTH ∨ a.height > MAX_HEIGHT)
  | 5 => decide (((a.data.length : Int)).tdiv a.height < a.rowstride)
  | 6 => decide (a.rowstride.tdiv (derivedChannels a.has_alpha) < a.width)
  | _ => false

/-- The rejection reason the source returns for the k-th check. -/
def checkReason : Nat → String
  | 0 => "Too small width, height, or stride"
  | 1 => "Too much data"
  | 2 => "Wrong number of bits per sample"
  | 3 => "Wrong number of channels"
  | 4 => "Width or height too large"
  | 5 => "Image too large"
  | 6 => "Row stride too small"
  | _ => ""

/-- Embedding of `pub struct TrustedStr(String);` (src/notifications.rs
line 100): a transparent wrapper around a string. -/
structure TrustedStr where
  val : String

/-- Source: `TrustedStr::new(arg)` returns `TrustedStr(arg)` unchanged
(the FIXME in the source notes that no validation is performed). -/
def TrustedStr.new (arg : String) : TrustedStr :=
  TrustedStr.mk arg

/-- Source: `TrustedStr::inner(&self)` returns a reference to the wrapped
string. -/
def TrustedStr.inner (s : TrustedStr) : String :=
  s.val

/-- Embedding of `pub enum Urgency` with `repr(u8)` discriminants
Low = 0, Normal = 1, Critical = 2. -/
inductive Urgency where
  | Low : Urgency
  | Normal : Urgency
  | Critical : Urgency

/-- The numeric wire code of an urgency level: the value the source's
`match urgency` arm inserts into the hints map (`&0u8`, `&1u8`, `&2u8`),
which coincides with the `repr(u8)` discriminant. -/
def Urgency.code : Urgency → Nat
  | Urgency.Low => 0
  | Urgency.Normal => 1
  | Urgency.Critical => 2

/-- The one `zbus::Error` variant this layer itself constructs
(`zbus::Error::Unsupported`); transport-produced errors are out of scope. -/
inductive ZbusError where
  | Unsupported : ZbusError

/-- The argument record handed to the transport's `notify` method: one value
per parameter of `NotificationsProxy::notify`, in source order. The hints
map (a `HashMap` into which the source performs at most one insert) is
modelled as an association list. -/
structure NotifyCall where
  app_name : String
  replaces_id : Nat
  app_icon : String
  summary : String
  body : String
  actions : List String
  hints : List (String × Value)
  expire_timeout : Int

/-- Embedding of `send_notification` (src/notifications.rs lines 116-173).
`Except.ok c` means the function reaches `connection.notify` and invokes it
with exactly the arguments recorded in `c`; `Except.error e` means the
function returns `Err(e)` before ever invoking the transport. The unused
parameters `_suppress_sound`, `_transient` and `_category` of the source are
kept in the signature. -/
def send_notification (_suppress_sound _transient : Bool) (urgency : Option Urgency)
    (replaces : Nat) (summary body : TrustedStr) (actions : List TrustedStr)
    (_category : Option TrustedStr) (expire_timeout : Int) :
    Except ZbusError NotifyCall :=
  if expire_timeout < -1 then
    Except.error ZbusError.Unsupported
  else
    Except.ok
      { app_name := ""
        replaces_id := replaces
        app_icon := ""
        summary := summary.val
        body := body.val
        actions := actions.map (fun x => x.val)
        hints :=
          match urgency with
          | some u => [("urgency", Value.u8 u.code)]
          | none => []
        expire_timeout := expire_timeout }

/-- The payload-size check (check 2) bounds the buffer length by
`MAX_SIZE = 2^21`, which is far below `2^31`, so the source's
`len() as i32` cast is the identity there. -/
theorem usizeAsI32_eq_ofNat (n : Nat) (h : n ≤ MAX_SIZE) :
    usizeAsI32 n = (n : Int) := by
  have h32 : n % 2 ^ 32 = n := Nat.mod_eq_of_lt (by
    have : MAX_SIZE < 2 ^ 32 := by decide
    omega)
  unfold usizeAsI32
  rw [h32]
  rw [if_pos]
  have : MAX_SIZE < 2 ^ 31 := by decide
  omega

/-- Claim C9: the trusted-string marker is an unconditional pass-through:
`TrustedStr.new s` wraps `s` unchanged and `inner` reads it back, so the
construction/read-out round trip is the identity on every string. -/
theorem trustedstr_new_inner_roundtrip (s : String) :
    TrustedStr.new s = TrustedStr.mk s ∧ (TrustedStr.new s).inner = s :=
  And.intro rfl rfl

/-- Claim C1: for width and height in [1,255], channels in {3,4} with
hasAlpha exactly when channels = 4, rowStride = width*channels,
bitsPerSample = 8 and a data buffer of length height*rowStride at most
`MAX_SIZE`, `serialize_image` succeeds and the returned descriptor carries
exactly the input values. -/
theorem serialize_image_exact_fit_ok (w h c : Int) (hasA : Bool)
    (data : List (Fin 256)) (hw1 : 1 ≤ w) (hw2 : w ≤ 255) (hh1 : 1 ≤ h)
    (hh2 : h ≤ 255) (hc : c = 3 ∨ c = 4) (halpha : hasA = decide (c = 4))
    (hlen : (data.length : Int) = h * (w * c)) (hmax : data.length ≤ MAX_SIZE) :
    serialize_image w h (w * c) hasA 8 c data =
      Except.ok (Value.structV [Value.i32 w, Value.i32 h, Value.i32 (w * c),
        Value.boolV hasA, Value.i32 8, Value.i32 c, Value.bytes data]) := by
  have hc3 : 3 ≤ c := by rcases hc with hc | hc <;> omega
  have hch : derivedChannels hasA = c := by
    rcases hc with hc | hc <;> subst hc <;> norm_num at halpha <;>
      simp [derivedChannels, halpha]
  have hwc : 3 ≤ w * c := by
    calc (3 : Int) = 1 * 3 := by ring
    _ ≤ w * c := mul_le_mul hw1 hc3 (by omega) (by omega)
  unfold serialize_image
  split_ifs with h1 h2 h3 h4 h5 h6 h7
  · exfalso; rcases h1 with h1 | h1 | h1 <;> omega
  · exact absurd h2 (by omega)
  · exact absurd rfl h3
  · rw [hch] at h4; exact absurd rfl h4
  · exfalso; rcases h5 with h5 | h5
    · exact absurd hw2 (by simpa [MAX_WIDTH] using h5)
    · exact absurd hh2 (by simpa [MAX_HEIGHT] using h5)
  · exfalso
    rw [usizeAsI32_eq_ofNat _ hmax, hlen,
      Int.mul_tdiv_cancel_left _ (by omega : h ≠ 0)] at h6
    omega
  · exfalso
    rw [hch, Int.mul_tdiv_cancel _ (by omega : c ≠ 0)] at h7
    omega
  · rw [hch]

/-- Witness for claim C1 at width 1, height 1, channels 3. -/
theorem serialize_image_exact_fit_ok_witness :
    serialize_image 1 1 (1 * 3) false 8 3 (List.replicate 3 0) =
      Except.ok (Value.structV [Value.i32 1, Value.i32 1, Value.i32 (1 * 3),
        Value.boolV false, Value.i32 8, Value.i32 3,
        Value.bytes (List.replicate 3 0)]) :=
  serialize_image_exact_fit_ok 1 1 3 false (List.replicate 3 0)
    (by decide) (by decide) (by decide) (by decide) (Or.inl rfl)
    (by decide) (by decide) (by decide)

/-- Inversion of a successful `serialize_image` run: the returned value is
the ordered descriptor tuple and every check's condition holds. -/
theorem serialize_ok_inversion (a : ImageArgs) (v : Value)
    (hok : serialize_imageA a = Except.ok v) :
    v = Value.structV [Value.i32 a.width, Value.i32 a.height,
        Value.i32 a.rowstride, Value.boolV a.has_alpha,
        Value.i32 a.bits_per_sample, Value.i32 a.channels,
        Value.bytes a.data] ∧
    1 ≤ a.width ∧ a.width ≤ 255 ∧ 1 ≤ a.height ∧ a.height ≤ 255 ∧
    3 ≤ a.rowstride ∧ a.data.length ≤ MAX_SIZE ∧
    a.bits_per_sample = 8 ∧ a.channels = derivedChannels a.has_alpha ∧
    a.rowstride ≤ ((a.data.length : Int)).tdiv a.height ∧
    a.width ≤ a.rowstride.tdiv (derivedChannels a.has_alpha) := by
  unfold serialize_imageA serialize_image at hok
  split_ifs at hok with h1 h2 h3 h4 h5 h6 h7
  push_neg at h1 h2 h3 h4 h5 h6 h7
  obtain ⟨hw, hh, hrs⟩ := h1
  obtain ⟨hwm, hhm⟩ := h5
  injection hok with hv
  rw [usizeAsI32_eq_ofNat _ h2] at h6
  refine ⟨?_, hw, by simpa [MAX_WIDTH] using hwm, hh,
    by simpa [MAX_HEIGHT] using hhm, hrs, h2, h3, h4, h6, h7⟩
  rw [← hv, h4]

/-- Claim C2: whenever `serialize_image` succeeds, the descriptor's buffer
holds at least `height` rows of `rowstride` bytes
(`data.length / height >= rowstride`) and each row holds at least `width`
pixels (`rowstride / channels >= width`), with width and height in
[1,255], bitsPerSample = 8 and channels = 3 + (hasAlpha ? 1 : 0). -/
theorem serialize_image_ok_bounds (a : ImageArgs) (v : Value)
    (hok : serialize_imageA a = Except.ok v) :
    a.rowstride ≤ ((a.data.length : Int)).tdiv a.height ∧
    a.width ≤ a.rowstride.tdiv a.channels ∧
    1 ≤ a.width ∧ a.width ≤ 255 ∧ 1 ≤ a.height ∧ a.height ≤ 255 ∧
    a.bits_per_sample = 8 ∧
    a.channels = 3 + (if a.has_alpha then 1 else 0) := by
  obtain ⟨hv, hw, hwm, hh, hhm, hrs, hlen, hbps, hch, hdiv1, hdiv2⟩ :=
    serialize_ok_inversion a v hok
  refine ⟨hdiv1, ?_, hw, hwm, hh, hhm, hbps,
    by simpa [derivedChannels] using hch⟩
  rw [hch]
  exact hdiv2

/-- Witness for claim C2 at width 2, height 1, channels 4. -/
theorem serialize_image_ok_bounds_witness :
    (8 : Int) ≤ (((List.replicate 8 (0 : Fin 256)).length : Int)).tdiv 1 ∧
    (2 : Int) ≤ (8 : Int).tdiv 4 ∧
    (1 : Int) ≤ 2 ∧ (2 : Int) ≤ 255 ∧ (1 : Int) ≤ 1 ∧ (1 : Int) ≤ 255 ∧
    (8 : Int) = 8 ∧ (4 : Int) = 3 + (if true then 1 else 0) :=
  serialize_image_ok_bounds ⟨2, 1, 8, true, 8, 4, List.replicate 8 0⟩
    (Value.structV [Value.i32 2, Value.i32 1, Value.i32 8, Value.boolV true,
      Value.i32 8, Value.i32 4, Value.bytes (List.replicate 8 0)]) rfl

/-- Claim C8: on success, `serialize_image` encodes the descriptor as a
structure whose components appear exactly in the order
(width, height, rowStride, hasAlpha, bitsPerSample, channels, data). -/
theorem serialize_image_tuple_order (a : ImageArgs) (v : Value)
    (hok : serialize_imageA a = Except.ok v) :
    v = Value.structV [Value.i32 a.width, Value.i32 a.height,
      Value.i32 a.rowstride, Value.boolV a.has_alpha,
      Value.i32 a.bits_per_sample, Value.i32 a.channels,
      Value.bytes a.data] :=
  (serialize_ok_inversion a v hok).1

/-- Witness for claim C8 at width 1, height 2, channels 3. -/
theorem serialize_image_tuple_order_witness :
    Value.structV [Value.i32 1, Value.i32 2, Value.i32 3, Value.boolV false,
      Value.i32 8, Value.i32 3, Value.bytes (List.replicate 6 0)] =
    Value.structV [Value.i32 1, Value.i32 2, Value.i32 3, Value.boolV false,
      Value.i32 8, Value.i32 3, Value.bytes (List.replicate 6 0)] :=
  serialize_image_tuple_order ⟨1, 2, 3, false, 8, 3, List.replicate 6 0⟩
    (Value.structV [Value.i32 1, Value.i32 2, Value.i32 3, Value.boolV false,
      Value.i32 8, Value.i32 3, Value.bytes (List.replicate 6 0)]) rfl

/-- Claim C5: no division of `serialize_image` can see a zero or negative
divisor: the run with machine-checked divisions (`serialize_image_checked`,
where a bad divisor yields `none`) always returns `some` of the unchecked
result, on every input. -/
theorem serialize_image_no_bad_division (a : ImageArgs) :
    serialize_image_checked a = some (serialize_imageA a) := by
  unfold serialize_image_checked serialize_imageA serialize_image
  split_ifs with h1 h2 h3 h4 h5 h6 h7
  all_goals try rfl
  all_goals push_neg at h1
  all_goals simp only [checkedTdiv,
    if_neg (show ¬ a.height ≤ 0 by omega),
    if_neg (show ¬ derivedChannels a.has_alpha ≤ 0 by
      unfold derivedChannels; split_ifs <;> omega)]
  · simp [h6]
  · simp [h6, h7]
  · simp [h6, h7]

/-- Claim C10: the `len() as i32` cast in the buffer-height check is
lossless: once the payload-size check has bounded the length by `MAX_SIZE`,
the cast is the identity, and `serialize_image` coincides everywhere with
the variant that compares against the exact length. -/
theorem serialize_image_cast_lossless (a : ImageArgs) :
    (a.data.length ≤ MAX_SIZE → usizeAsI32 a.data.length = (a.data.length : Int)) ∧
    serialize_imageA a = serialize_image_exact a := by
  refine ⟨usizeAsI32_eq_ofNat a.data.length, ?_⟩
  unfold serialize_imageA serialize_image serialize_image_exact
  by_cases h1 : a.width < 1 ∨ a.height < 1 ∨ a.rowstride < 3
  · simp only [if_pos h1]
  by_cases h2 : a.data.length > MAX_SIZE
  · simp only [if_neg h1, if_pos h2]
  have hc := usizeAsI32_eq_ofNat a.data.length (by omega)
  simp only [if_neg h1, if_neg h2, hc]

/-- Witness for claim C10 at a 3-byte buffer. -/
theorem serialize_image_cast_lossless_witness :
    usizeAsI32 (List.replicate 3 (0 : Fin 256)).length =
      ((List.replicate 3 (0 : Fin 256)).length : Int) ∧
    serialize_imageA ⟨1, 1, 3, false, 8, 3, List.replicate 3 0⟩ =
      serialize_image_exact ⟨1, 1, 3, false, 8, 3, List.replicate 3 0⟩ :=
  And.intro
    ((serialize_image_cast_lossless ⟨1, 1, 3, false, 8, 3, List.replicate 3 0⟩).1
      (by decide))
    (serialize_image_cast_lossless ⟨1, 1, 3, false, 8, 3, List.replicate 3 0⟩).2

/-- First-failure characterization of `serialize_image`: if the k-th check
condition fails and all earlier ones pass, the function returns the k-th
rejection reason. -/
theorem serialize_first_fail (a : ImageArgs) (k : Nat) (hk : k < 7)
    (hfail : checkFails a k = true)
    (hprev : ∀ j, j < k → checkFails a j = false) :
    serialize_imageA a = Except.error (checkReason k) := by
  interval_cases k
  · have hf : a.width < 1 ∨ a.height < 1 ∨ a.rowstride < 3 := by
      simpa [checkFails] using hfail
    unfold serialize_imageA serialize_image
    rw [if_pos hf]
    rfl
  · have h0 : ¬(a.width < 1 ∨ a.height < 1 ∨ a.rowstride < 3) := by
      simpa [checkFails] using hprev 0 (by omega)
    have hf : a.data.length > MAX_SIZE := by simpa [checkFails] using hfail
    unfold serialize_imageA serialize_image
    rw [if_neg h0, if_pos hf]
    rfl
  · have h0 : ¬(a.width < 1 ∨ a.height < 1 ∨ a.rowstride < 3) := by
      simpa [checkFails] using hprev 0 (by omega)
    have h1 : ¬(a.data.length > MAX_SIZE) := by
      simpa [checkFails] using hprev 1 (by omega)
    have hf : a.bits_per_sample ≠ 8 := by simpa [checkFails] using hfail
    unfold serialize_imageA serialize_image
    rw [if_neg h0, if_neg h1, if_pos hf]
    rfl
  · have h0 : ¬(a.width < 1 ∨ a.height < 1 ∨ a.rowstride < 3) := by
      simpa [checkFails] using hprev 0 (by omega)
    have h1 : ¬(a.data.length > MAX_SIZE) := by
      simpa [checkFails] using hprev 1 (by omega)
    have h2 : ¬(a.bits_per_sample ≠ 8) := by
      simpa [checkFails] using hprev 2 (by omega)
    have hf : a.channels ≠ derivedChannels a.has_alpha := by
      simpa [checkFails] using hfail
    unfold serialize_imageA serialize_image
    rw [if_neg h0, if_neg h1, if_neg h2, if_pos hf]
    rfl
  · have h0 : ¬(a.width < 1 ∨ a.height < 1 ∨ a.rowstride < 3) := by
      simpa [checkFails] using hprev 0 (by omega)
    have h1 : ¬(a.data.length > MAX_SIZE) := by
      simpa [checkFails] using hprev 1 (by omega)
    have h2 : ¬(a.bits_per_sample ≠ 8) := by
      simpa [checkFails] using hprev 2 (by omega)
    have h3 : ¬(a.channels ≠ derivedChannels a.has_alpha) := by
      simpa [checkFails] using hprev 3 (by omega)
    have hf : a.width > MAX_WIDTH ∨ a.height > MAX_HEIGHT := by
      simpa [checkFails] using hfail
    unfold serialize_imageA serialize_image
    rw [if_neg h0, if_neg h1, if_neg h2, if_neg h3, if_pos hf]
    rfl
  · have h0 : ¬(a.width < 1 ∨ a.height < 1 ∨ a.rowstride < 3) := by
      simpa [checkFails] using hprev 0 (by omega)
    have h1 : ¬(a.data.length > MAX_SIZE) := by
      simpa [checkFails] using hprev 1 (by omega)
    have h2 : ¬(a.bits_per_sample ≠ 8) := by
      simpa [checkFails] using hprev 2 (by omega)
    have h3 : ¬(a.channels ≠ derivedChannels a.has_alpha) := by
      simpa [checkFails] using hprev 3 (by omega)
    have h4 : ¬(a.width > MAX_WIDTH ∨ a.height > MAX_HEIGHT) := by
      simpa [checkFails] using hprev 4 (by omega)
    have hf : ((a.data.length : Int)).tdiv a.height < a.rowstride := by
      simpa [checkFails] using hfail
    unfold serialize_imageA serialize_image
    rw [usizeAsI32_eq_ofNat _ (by omega : a.data.length ≤ MAX_SIZE)]
    rw [if_neg h0, if_neg h1, if_neg h2, if_neg h3, if_neg h4, if_pos hf]
    rfl
  · have h0 : ¬(a.width < 1 ∨ a.height < 1 ∨ a.rowstride < 3) := by
      simpa [checkFails] using hprev 0 (by omega)
    have h1 : ¬(a.data.length > MAX_SIZE) := by
      simpa [checkFails] using hprev 1 (by omega)
    have h2 : ¬(a.bits_per_sample ≠ 8) := by
      simpa [checkFails] using hprev 2 (by omega)
    have h3 : ¬(a.channels ≠ derivedChannels a.has_alpha) := by
      simpa [checkFails] using hprev 3 (by omega)
    have h4 : ¬(a.width > MAX_WIDTH ∨ a.height > MAX_HEIGHT) := by
      simpa [checkFails] using hprev 4 (by omega)
    have h5 : ¬(((a.data.length : Int)).tdiv a.height < a.rowstride) := by
      simpa [checkFails] using hprev 5 (by omega)
    have hf : a.rowstride.tdiv (derivedChannels a.has_alpha) < a.width := by
      simpa [checkFails] using hfail
    unfold serialize_imageA serialize_image
    rw [usizeAsI32_eq_ofNat _ (by omega : a.data.length ≤ MAX_SIZE)]
    rw [if_neg h0, if_neg h1, if_neg h2, if_neg h3, if_neg h4, if_neg h5,
      if_pos hf]
    rfl

/-- Claim C3: the seven checks of `serialize_image` are applied in the
fixed spec order, stopping at the first failing check; each of the seven
failures yields its own distinct rejection reason; and when every check
passes the function succeeds. -/
theorem serialize_image_check_order :
    (∀ i j : Fin 7, checkReason i.val = checkReason j.val → i = j) ∧
    (∀ (a : ImageArgs) (k : Fin 7), checkFails a k.val = true →
      (∀ j : Fin 7, j < k → checkFails a j.val = false) →
      serialize_imageA a = Except.error (checkReason k.val)) ∧
    (∀ a : ImageArgs, (∀ j : Fin 7, checkFails a j.val = false) →
      ∃ v, serialize_imageA a = Except.ok v) := by
  refine ⟨by decide, ?_, ?_⟩
  · intro a k hfail hprev
    refine serialize_first_fail a k.val k.isLt hfail ?_
    intro j hj
    have hjk : (⟨j, by omega⟩ : Fin 7) < k := by
      simpa [Fin.lt_def] using hj
    exact hprev ⟨j, by omega⟩ hjk
  · intro a hall
    have h0 : ¬(a.width < 1 ∨ a.height < 1 ∨ a.rowstride < 3) := by
      simpa [checkFails] using hall 0
    have h1 : ¬(a.data.length > MAX_SIZE) := by
      simpa [checkFails] using hall 1
    have h2 : ¬(a.bits_per_sample ≠ 8) := by
      simpa [checkFails] using hall 2
    have h3 : ¬(a.channels ≠ derivedChannels a.has_alpha) := by
      simpa [checkFails] using hall 3
    have h4 : ¬(a.width > MAX_WIDTH ∨ a.height > MAX_HEIGHT) := by
      simpa [checkFails] using hall 4
    have h5 : ¬(((a.data.length : Int)).tdiv a.height < a.rowstride) := by
      simpa [checkFails] using hall 5
    have h6 : ¬(a.rowstride.tdiv (derivedChannels a.has_alpha) < a.width) := by
      simpa [checkFails] using hall 6
    unfold serialize_imageA serialize_image
    rw [usizeAsI32_eq_ofNat _ (by omega : a.data.length ≤ MAX_SIZE)]
    rw [if_neg h0, if_neg h1, if_neg h2, if_neg h3, if_neg h4, if_neg h5,
      if_neg h6]
    exact ⟨_, rfl⟩

/-- Witness for claim C3: bitsPerSample 16 with checks 1 and 2 passing hits
check 3's distinct reason. -/
theorem serialize_image_check_order_witness :
    serialize_imageA ⟨1, 1, 3, false, 16, 3, []⟩ =
      Except.error (checkReason (2 : Fin 7).val) :=
  serialize_image_check_order.2.1 ⟨1, 1, 3, false, 16, 3, []⟩ 2
    (by decide) (by decide)

/-- Counterexample to claim C4 as stated: with a buffer of 2^21 + 1 bytes
but width 0, `serialize_image` rejects with the minimum-geometry reason,
not the payload-size reason — the geometry check runs first. -/
theorem serialize_image_payload_claim_counterexample :
    (List.replicate (2 ^ 21 + 1) (0 : Fin 256)).length = 2 ^ 21 + 1 ∧
    serialize_imageA ⟨0, 1, 3, false, 8, 3, List.replicate (2 ^ 21 + 1) 0⟩ =
      Except.error "Too small width, height, or stride" ∧
    serialize_imageA ⟨0, 1, 3, false, 8, 3, List.replicate (2 ^ 21 + 1) 0⟩ ≠
      Except.error "Too much data" := by
  refine ⟨by rw [List.length_replicate], rfl, ?_⟩
  intro hcontra
  rw [show serialize_imageA ⟨0, 1, 3, false, 8, 3, List.replicate (2 ^ 21 + 1) 0⟩ =
      Except.error "Too small width, height, or stride" from rfl] at hcontra
  simp only [Except.error.injEq] at hcontra
  exact absurd hcontra (by decide)

/-- Claim C4 (amended): for any input whose buffer length is 2^21 + 1 and
which passes the minimum-geometry check (width ≥ 1, height ≥ 1,
rowStride ≥ 3), `serialize_image` rejects with the payload-size reason,
regardless of the remaining field values. -/
theorem serialize_image_payload_too_large (a : ImageArgs)
    (hlen : a.data.length = 2 ^ 21 + 1) (hw : 1 ≤ a.width)
    (hh : 1 ≤ a.height) (hrs : 3 ≤ a.rowstride) :
    serialize_imageA a = Except.error "Too much data" := by
  have hms : MAX_SIZE = 2 ^ 21 := by decide
  unfold serialize_imageA serialize_image
  rw [if_neg (show ¬(a.width < 1 ∨ a.height < 1 ∨ a.rowstride < 3) by omega),
    if_pos (show a.data.length > MAX_SIZE by omega)]

/-- Witness for claim C4's amended theorem: minimal geometry with a buffer
one byte over the cap. -/
theorem serialize_image_payload_too_large_witness :
    serialize_imageA ⟨1, 1, 3, false, 8, 3, List.replicate (2 ^ 21 + 1) 0⟩ =
      Except.error "Too much data" :=
  serialize_image_payload_too_large
    ⟨1, 1, 3, false, 8, 3, List.replicate (2 ^ 21 + 1) 0⟩
    (by rw [List.length_replicate]) (by decide) (by decide) (by decide)

/-- Claim C6: `send_notification` rejects any expire timeout below -1 with
the Unsupported error before invoking the transport, and hands the request
to the transport for -1 and any larger value. -/
theorem send_notification_timeout_gate (sup tr : Bool) (urg : Option Urgency)
    (replaces : Nat) (summary body : TrustedStr) (actions : List TrustedStr)
    (cat : Option TrustedStr) (t : Int) :
    (t < -1 →
      send_notification sup tr urg replaces summary body actions cat t =
        Except.error ZbusError.Unsupported) ∧
    (-1 ≤ t →
      ∃ c : NotifyCall,
        send_notification sup tr urg replaces summary body actions cat t =
          Except.ok c ∧ c.expire_timeout = t) := by
  constructor
  · intro ht
    unfold send_notification
    rw [if_pos ht]
  · intro ht
    unfold send_notification
    rw [if_neg (by omega)]
    exact ⟨_, rfl, rfl⟩

/-- Witness for claim C6 at timeouts -2 and -1. -/
theorem send_notification_timeout_gate_witness :
    send_notification false false none 0 (TrustedStr.new "s")
        (TrustedStr.new "b") [] none (-2) =
      Except.error ZbusError.Unsupported ∧
    ∃ c : NotifyCall,
      send_notification false false none 0 (TrustedStr.new "s")
          (TrustedStr.new "b") [] none (-1) =
        Except.ok c ∧ c.expire_timeout = -1 :=
  And.intro
    ((send_notification_timeout_gate false false none 0 (TrustedStr.new "s")
        (TrustedStr.new "b") [] none (-2)).1 (by decide))
    ((send_notification_timeout_gate false false none 0 (TrustedStr.new "s")
        (TrustedStr.new "b") [] none (-1)).2 (by decide))

/-- Claim C7: on every accepted call, the hints map handed to the transport
is exactly one "urgency" entry with the urgency's numeric code when urgency
is present (Low = 0, Normal = 1, Critical = 2), and empty when absent; no
other hint key is ever set. -/
theorem send_notification_urgency_hints (sup tr : Bool) (urg : Option Urgency)
    (replaces : Nat) (summary body : TrustedStr) (actions : List TrustedStr)
    (cat : Option TrustedStr) (t : Int) (c : NotifyCall)
    (hok : send_notification sup tr urg replaces summary body actions cat t =
      Except.ok c) :
    (∀ u, urg = some u → c.hints = [("urgency", Value.u8 u.code)]) ∧
    (urg = none → c.hints = []) ∧
    Urgency.code Urgency.Low = 0 ∧ Urgency.code Urgency.Normal = 1 ∧
    Urgency.code Urgency.Critical = 2 := by
  unfold send_notification at hok
  split_ifs at hok
  injection hok with hc
  subst hc
  refine ⟨?_, ?_, rfl, rfl, rfl⟩
  · rintro u rfl
    rfl
  · rintro rfl
    rfl

/-- Witness for claim C7 with urgency Critical on an accepted call. -/
theorem send_notification_urgency_hints_witness :
    (∀ u, some Urgency.Critical = some u →
      [(("urgency" : String), Value.u8 2)] =
        [("urgency", Value.u8 (Urgency.code u))]) ∧
    (some Urgency.Critical = (none : Option Urgency) →
      [(("urgency" : String), Value.u8 2)] = ([] : List (String × Value))) ∧
    Urgency.code Urgency.Low = 0 ∧ Urgency.code Urgency.Normal = 1 ∧
    Urgency.code Urgency.Critical = 2 :=
  send_notification_urgency_hints false false (some Urgency.Critical) 0
    (TrustedStr.new "s") (TrustedStr.new "b") [] none 0
    { app_name := "", replaces_id := 0, app_icon := "", summary := "s",
      body := "b", actions := [], hints := [("urgency", Value.u8 2)],
      expire_timeout := 0 } rfl

end NotifProxy
